import Mathlib

/-!
Verification of the clinicaltrials.gov chat front-end (`src/app.py`).

The development shallowly embeds the parts of the program the claims are
about: the three registered handlers (`study_search`, `get_field_info`,
`save_csv`), the function registry (`function_map`) and the function-call
dispatch loop at the bottom of `app.py`.  External collaborators (the
`json` library, the `requests` HTTP client, the filesystem, and the LLM)
are modelled as explicit parameters: an HTTP response is a status code
plus an already-parsed JSON body, the scripted LLM is a list of responses
consumed in order, and a raised Python exception is `Except.error` with
the exception text.
-/

set_option autoImplicit false

namespace ClinicalTrials

/-- A JSON value, the loosely-typed documents exchanged with the
clinicaltrials.gov API and with the LLM.  Numbers are modelled as
integers (no claim involves floating point). -/
inductive Json where
  | null
  | bool (b : Bool)
  | num (n : Int)
  | str (s : String)
  | arr (xs : List Json)
  | obj (kvs : List (String × Json))

/-- Python `d[k]` lookup on an association list (first binding wins;
our dicts never hold duplicate keys, mirroring Python dict semantics). -/
def pyDictGet {α : Type} : List (String × α) → String → Option α
  | [], _ => none
  | (k', v) :: rest, k => if k' = k then some v else pyDictGet rest k

/-- Python `d[k] = v`: if the key is present its value is updated in
place (keeping its position), otherwise the pair is appended at the end —
exactly Python's insertion-ordered dict assignment. -/
def pyDictInsert {α : Type} : List (String × α) → String → α → List (String × α)
  | [], k, v => [(k, v)]
  | (k', v') :: rest, k, v =>
      if k' = k then (k', v) :: rest else (k', v') :: pyDictInsert rest k v

/-- Python subscription `data[k]` on a JSON value: a missing key raises
`KeyError`, subscripting a non-dict raises `TypeError`.  The exact
exception text is immaterial to the program (it is only ever observed
through `str(e)` or as an uncaught crash). -/
def pySub : Json → String → Except String Json
  | .obj kvs, k =>
      match pyDictGet kvs k with
      | some v => .ok v
      | none => .error ("KeyError: \x27" ++ k ++ "\x27")
  | _, _ => .error "TypeError: value is not subscriptable"

/-- Chained subscription `data[k1][k2]...[kn]`. -/
def pySubPath : Json → List String → Except String Json
  | d, [] => .ok d
  | d, k :: ks =>
      match pySub d k with
      | .ok v => pySubPath v ks
      | .error e => .error e

/-- Models the pattern `try: out = data[k1]..[kn]  except: out = fallback`
used throughout `get_field_info` (the source uses bare `except:`, so any
exception yields the fallback string). -/
def tryPath (data : Json) (path : List String) (fallback : String) : Json :=
  match pySubPath data path with
  | .ok v => v
  | .error _ => .str fallback

mutual

/-- Python `repr`/`str` of a parsed-JSON value (`str` of a dict or list is
its `repr`); used by the f-string building the system notice message.
String escaping inside `repr` is elided (no claim exercises it). -/
def pyRepr : Json → String
  | .null => "None"
  | .bool true => "True"
  | .bool false => "False"
  | .num n => toString n
  | .str s => "\x27" ++ s ++ "\x27"
  | .arr xs => "[" ++ pyReprList xs ++ "]"
  | .obj kvs => "\x7b" ++ pyReprObj kvs ++ "\x7d"

def pyReprList : List Json → String
  | [] => ""
  | [x] => pyRepr x
  | x :: xs => pyRepr x ++ ", " ++ pyReprList xs

def pyReprObj : List (String × Json) → String
  | [] => ""
  | [kv] => "\x27" ++ kv.1 ++ "\x27: " ++ pyRepr kv.2
  | kv :: kvs => "\x27" ++ kv.1 ++ "\x27: " ++ pyRepr kv.2 ++ ", " ++ pyReprObj kvs

end

/-- Python `str(v)`: the bare string for strings, `repr` otherwise
(matching `str` on `None`, booleans, numbers, lists and dicts). -/
def pyStr : Json → String
  | .str s => s
  | v => pyRepr v

mutual

/-- `json.dumps` with default separators, string escaping elided. -/
def pyJsonDumps : Json → String
  | .null => "null"
  | .bool true => "true"
  | .bool false => "false"
  | .num n => toString n
  | .str s => "\"" ++ s ++ "\""
  | .arr xs => "[" ++ pyJsonDumpsList xs ++ "]"
  | .obj kvs => "\x7b" ++ pyJsonDumpsObj kvs ++ "\x7d"

def pyJsonDumpsList : List Json → String
  | [] => ""
  | [x] => pyJsonDumps x
  | x :: xs => pyJsonDumps x ++ ", " ++ pyJsonDumpsList xs

def pyJsonDumpsObj : List (String × Json) → String
  | [] => ""
  | [kv] => "\"" ++ kv.1 ++ "\": " ++ pyJsonDumps kv.2
  | kv :: kvs => "\"" ++ kv.1 ++ "\": " ++ pyJsonDumps kv.2 ++ ", " ++ pyJsonDumpsObj kvs

end

/-- An HTTP response as observed by the handlers: the status code and the
already-parsed JSON body (`response.json()`); the claims under study only
concern responses whose body is a JSON document. -/
structure HttpResponse where
  status_code : Nat
  body : Json

/-- Model of the host filesystem seen by `save_csv`: the current working
directory, the files (name to content), and an oracle telling, for each
file name, whether opening it for writing raises (permission denied,
invalid name, ...) and with what exception text. -/
structure FileSystem where
  cwd : String
  files : List (String × String)
  openFails : String → Option String

/-- `ClinicalFunctions.save_csv` (src/app.py lines 182-191): writes the
text to `<title>.csv` via `open(..., 'w')` (truncating any existing file)
and returns the message `"Saved to:" + os.getcwd() + "/" + title + ".csv"`;
any exception is caught and reported as `"Error saving file: " + str(e)`. -/
def save_csv (fs : FileSystem) (text title : String) : FileSystem × String :=
  let fname := title ++ ".csv"
  match fs.openFails fname with
  | some e => (fs, "Error saving file: " ++ e)
  | none =>
      ({ fs with files := pyDictInsert fs.files fname text },
       "Saved to:" ++ fs.cwd ++ "/" ++ title ++ ".csv")

/-- The three-level subscription `d[k1][k2][k3]`. -/
def pySub3 (d : Json) (k1 k2 k3 : String) : Except String Json :=
  match pySub d k1 with
  | .error e => .error e
  | .ok v1 =>
      match pySub v1 k2 with
      | .error e => .error e
      | .ok v2 => pySub v2 k3

/-- The extraction loop of `study_search` (src/app.py lines 217-219): for
each study append `study['protocolSection']['identificationModule']['briefTitle']`
and `...['nctId']`; any failing subscription raises out of the loop. -/
def collectStudies : List Json → Except String (List Json × List Json)
  | [] => .ok ([], [])
  | study :: rest =>
      match pySub3 study "protocolSection" "identificationModule" "briefTitle" with
      | .error e => .error e
      | .ok name =>
          match pySub3 study "protocolSection" "identificationModule" "nctId" with
          | .error e => .error e
          | .ok nct =>
              match collectStudies rest with
              | .error e => .error e
              | .ok (names, ids) => .ok (name :: names, nct :: ids)

/-- `ClinicalFunctions.study_search` (src/app.py lines 193-231).  The HTTP
response to the GET on the studies endpoint is passed in explicitly.  The
parameters keep Python's lack of type enforcement: they are arbitrary JSON
values (`query_term` defaults to `None`, `pageSize` to `10` at binding).
A raised exception (missing `'studies'` key, malformed study entry) is
`Except.error`; it propagates to the dispatch loop's `try`. -/
def study_search (response : HttpResponse) (query_term pageSize : Json) :
    Except String Json :=
  if response.status_code = 200 then
    match pySub response.body "studies" with
    | .error e => .error e
    | .ok study_data =>
        match study_data with
        | .arr studies =>
            match collectStudies studies with
            | .error e => .error e
            | .ok (study_names, nct_ids) =>
                .ok (.obj
                  [("Query Term", query_term),
                   ("Page Size", pageSize),
                   ("Number of Results", .num study_names.length),
                   ("Study Name", .arr study_names),
                   ("NCT_ID", .arr nct_ids)])
        | _ => .error "TypeError: value is not iterable"
  else
    .ok (.str ("Request failed with status code " ++ toString response.status_code))

/-- Python `s.replace(" ", "")`: deletes every space character. -/
def removeSpaces (s : String) : String :=
  ⟨s.data.filter (fun c => c != ' ')⟩

/-- Python `s.split(",")` on the character list: pieces between commas,
empty pieces kept, `"".split(",") == [""]`. -/
def splitCommas : List Char → List (List Char)
  | [] => [[]]
  | c :: rest =>
      let r := splitCommas rest
      if c = ',' then [] :: r
      else
        match r with
        | [] => [[c]]
        | piece :: pieces => (c :: piece) :: pieces

/-- The identifier preprocessing of `get_field_info` (src/app.py lines
236-237): `nct_ids.replace(" ", "").split(",")` — every space character is
removed, then the string is split on commas. -/
def splitIds (nct_ids : String) : List String :=
  (splitCommas (removeSpaces nct_ids).data).map (fun cs => ⟨cs⟩)

/-- Python `field == "lit"` for a string literal: true exactly when the
value is that string (equality across Python types is `False`, never an
error). -/
def pyEqStr (v : Json) (s : String) : Bool :=
  match v with
  | .str t => t == s
  | _ => false

/-- The per-identifier body of `get_field_info`'s loop (src/app.py lines
246-312): fetch the record, and on HTTP 200 run the `if/elif` chain on
`field`, each branch guarded by a bare `try/except` substituting a
field-specific fallback string; unknown fields get the fixed message; a
non-200 fetch gets a status-code error string.  `field` is an arbitrary
JSON value (Python compares it with `==` against string literals and
formats it with an f-string). -/
def field_result (recordResponse : String → HttpResponse) (field : Json)
    (nct_id : String) : Json :=
  let response := recordResponse nct_id
  if response.status_code = 200 then
    let data := response.body
    if pyEqStr field "interventionAlone" then
      tryPath data ["derivedSection", "interventionBrowseModule", "browseLeaves"]
        "No interventions found"
    else if pyEqStr field "studyArmsInterventions" then
      tryPath data ["protocolSection", "armsInterventionsModule", "armGroups"]
        "No arms or interventions found"
    else if pyEqStr field "patientConditions" then
      tryPath data ["protocolSection", "conditionsModule", "conditions"]
        "No conditions found"
    else if pyEqStr field "studySummary" then
      tryPath data ["protocolSection", "descriptionModule", "briefSummary"]
        "No brief summary found"
    else if pyEqStr field "studyDesign" then
      tryPath data ["protocolSection", "designModule"]
        "No study design found"
    else if pyEqStr field "patientEligibility" then
      tryPath data ["protocolSection", "eligibilityModule"]
        "No eligibility criteria found"
    else if pyEqStr field "organizations" then
      tryPath data ["protocolSection", "sponsorsCollaboratorsModule"]
        "No organizations found"
    else if pyEqStr field "primaryOutcomes" then
      tryPath data ["protocolSection", "outcomesModule", "primaryOutcomes"]
        "No primary outcomes found"
    else if pyEqStr field "secondaryOutcomes" then
      tryPath data ["protocolSection", "outcomesModule", "secondaryOutcomes"]
        "No secondary outcomes found"
    else if pyEqStr field "references" then
      tryPath data ["protocolSection", "referencesModule", "references"]
        "No references found"
    else if pyEqStr field "statusDates" then
      tryPath data ["protocolSection", "statusModule"]
        "No status dates found"
    else
      .str ("Field " ++ pyStr field ++ " is not a valid field. Valid fields are: studyArmsInterventions, patientConditions, studySummary, studyDesign, patientEligibility, organizations, primaryOutcomes, secondaryOutcomes, references, statusDates.")
  else
    .str ("Request failed with status code " ++ toString response.status_code)

/-- `ClinicalFunctions.get_field_info` (src/app.py lines 233-316): split
the identifiers, build `data_out = \x7b'nct_ids': ..., 'field': ...\x7d`,
pre-assign `data_out[nct_id] = None` for each identifier, then loop again
assigning each identifier its `field_result`.  The returned value is the
final dict (as an association list with Python dict assignment
semantics). -/
def get_field_info (recordResponse : String → HttpResponse)
    (nct_ids : String) (field : Json) : List (String × Json) :=
  let ids := splitIds nct_ids
  let data_out : List (String × Json) :=
    [("nct_ids", .arr (ids.map .str)), ("field", field)]
  let data_out := ids.foldl (fun d i => pyDictInsert d i .null) data_out
  ids.foldl (fun d i => pyDictInsert d i (field_result recordResponse field i)) data_out

/-- The external world seen by one chat turn: `json.loads` (the parse of
the LLM-supplied argument string), the two clinicaltrials.gov endpoints
(`requests.get` on the search URL with `query.term`/`pageSize` parameters,
and on the per-record URL), and the filesystem. -/
structure Env where
  loads : String → Except String Json
  searchResponse : Json → Json → HttpResponse
  recordResponse : String → HttpResponse
  fs : FileSystem

/-- `study_search` as called through `function_to_call(**function_args)`:
keyword binding against `def study_search(self, query_term=None, pageSize=10)`.
A non-dict argument payload or an unexpected keyword raises `TypeError`
(inside the dispatch loop's `try`). -/
def study_search_callable (env : Env) (args : Json) :
    Except String (Json × Env) :=
  match args with
  | .obj kvs =>
      if kvs.all (fun kv => kv.1 == "query_term" || kv.1 == "pageSize") then
        let query_term := (pyDictGet kvs "query_term").getD .null
        let pageSize := (pyDictGet kvs "pageSize").getD (.num 10)
        match study_search (env.searchResponse query_term pageSize) query_term pageSize with
        | .ok v => .ok (v, env)
        | .error e => .error e
      else .error "TypeError: study_search() got an unexpected keyword argument"
  | _ => .error "TypeError: argument after ** must be a mapping"

/-- `get_field_info` as called through `function_to_call(**function_args)`:
binding against `def get_field_info(self, nct_ids, field)` — both keywords
required, no others accepted.  A non-string `nct_ids` raises
`AttributeError` at `.replace` inside the handler (also caught by the
dispatch loop's `try`). -/
def get_field_info_callable (env : Env) (args : Json) :
    Except String (Json × Env) :=
  match args with
  | .obj kvs =>
      if kvs.all (fun kv => kv.1 == "nct_ids" || kv.1 == "field") then
        match pyDictGet kvs "nct_ids", pyDictGet kvs "field" with
        | some (.str ids), some fieldv =>
            .ok (.obj (get_field_info env.recordResponse ids fieldv), env)
        | some _, some _ =>
            .error "AttributeError: object has no attribute \x27replace\x27"
        | _, _ =>
            .error "TypeError: get_field_info() missing a required argument"
      else .error "TypeError: get_field_info() got an unexpected keyword argument"
  | _ => .error "TypeError: argument after ** must be a mapping"

/-- `save_csv` as called through `function_to_call(**function_args)`:
binding against `def save_csv(self, text=None, title=None)`.  Non-string
values make the handler's own `try` catch the `TypeError` from
`title + ".csv"` or `f.write(text)`, so an error *string* is returned. -/
def save_csv_callable (env : Env) (args : Json) :
    Except String (Json × Env) :=
  match args with
  | .obj kvs =>
      if kvs.all (fun kv => kv.1 == "text" || kv.1 == "title") then
        match (pyDictGet kvs "text").getD .null, (pyDictGet kvs "title").getD .null with
        | .str text, .str title =>
            let out := save_csv env.fs text title
            .ok (.str out.2, { env with fs := out.1 })
        | _, _ =>
            .ok (.str "Error saving file: unsupported operand type(s)", env)
      else .error "TypeError: save_csv() got an unexpected keyword argument"
  | _ => .error "TypeError: argument after ** must be a mapping"

/-- `ClinicalFunctions.function_map` (src/app.py lines 175-180): the fixed
Function Registry, mapping each declared function name to its handler. -/
def function_map : List (String × (Env → Json → Except String (Json × Env))) :=
  [("study_search", study_search_callable),
   ("get_field_info", get_field_info_callable),
   ("save_csv", save_csv_callable)]

/-- One message of the conversation transcript: a `ChatMessage(role, content)`
or a `FunctionMessage(name, content)`. -/
inductive Message where
  | chat (role content : String)
  | function (name content : String)
  deriving DecidableEq

/-- One completed LLM response, as inspected by the dispatch loop: either
plain text, or a function-call request carrying a name and the serialized
argument string. -/
inductive Response where
  | text (content : String)
  | function_call (name arguments : String)

/-- The function-call dispatch loop (src/app.py lines 373-400), driven by
a scripted LLM: the list of responses is consumed in order, one per
`llm(...)` call.  While the response is a function call: look the name up
in `function_map` (an absent key raises `KeyError` — uncaught), parse the
arguments with `json.loads` (a parse failure is uncaught), append the
system notice, call the handler inside `try/except` (a failure becomes the
string `"Function call failed with error: " ++ e`), append the
`FunctionMessage` with the `json.dumps` of the result, and loop.  A text
response appends the assistant message and ends the turn.  `Except.error`
models an uncaught exception aborting the turn (messages already placed in
the session state before the crash are not modelled; no claim observes
them).  An exhausted script stands for an LLM that never answers. -/
def dispatchLoop (env : Env) :
    List Response → List Message → Except String (List Message × Env)
  | [], _ => .error "scripted LLM produced no response"
  | .text content :: _, msgs =>
      .ok (msgs ++ [.chat "assistant" content], env)
  | .function_call function_name arguments :: rest, msgs =>
      match pyDictGet function_map function_name with
      | none => .error ("KeyError: \x27" ++ function_name ++ "\x27")
      | some function_to_call =>
          match env.loads arguments with
          | .error e => .error e
          | .ok function_args =>
              let function_call_message :=
                "Calling function " ++ function_name ++ " with arguments: " ++
                  pyRepr function_args
              let msgs := msgs ++ [Message.chat "system" function_call_message]
              let out : Json × Env :=
                match function_to_call env function_args with
                | .ok ve => ve
                | .error e =>
                    (.str ("Function call failed with error: " ++ e), env)
              let msgs := msgs ++ [Message.function function_name (pyJsonDumps out.1)]
              dispatchLoop out.2 rest msgs

/-- One chat turn (src/app.py lines 351-400): append the user message and
run the dispatch loop until the scripted LLM yields text.  The UI-only
steps (streaming display, spinners, the API-key guard) have no effect on
the history and are not modelled. -/
def run_turn (env : Env) (script : List Response) (history : List Message)
    (prompt : String) : Except String (List Message × Env) :=
  dispatchLoop env script (history ++ [Message.chat "user" prompt])

/-! ## Tables and concrete instances used by the statements -/

/-- The eleven field names recognized by `get_field_info`, in the order of
the `if/elif` chain (src/app.py lines 254-308). -/
def validFields : List String :=
  ["interventionAlone", "studyArmsInterventions", "patientConditions",
   "studySummary", "studyDesign", "patientEligibility", "organizations",
   "primaryOutcomes", "secondaryOutcomes", "references", "statusDates"]

/-- The subscription path each recognized field reads from the record. -/
def fieldPath : String → List String
  | "interventionAlone" => ["derivedSection", "interventionBrowseModule", "browseLeaves"]
  | "studyArmsInterventions" => ["protocolSection", "armsInterventionsModule", "armGroups"]
  | "patientConditions" => ["protocolSection", "conditionsModule", "conditions"]
  | "studySummary" => ["protocolSection", "descriptionModule", "briefSummary"]
  | "studyDesign" => ["protocolSection", "designModule"]
  | "patientEligibility" => ["protocolSection", "eligibilityModule"]
  | "organizations" => ["protocolSection", "sponsorsCollaboratorsModule"]
  | "primaryOutcomes" => ["protocolSection", "outcomesModule", "primaryOutcomes"]
  | "secondaryOutcomes" => ["protocolSection", "outcomesModule", "secondaryOutcomes"]
  | "references" => ["protocolSection", "referencesModule", "references"]
  | "statusDates" => ["protocolSection", "statusModule"]
  | _ => []

/-- The field-specific fallback string substituted when the path is
missing from the record. -/
def fieldFallback : String → String
  | "interventionAlone" => "No interventions found"
  | "studyArmsInterventions" => "No arms or interventions found"
  | "patientConditions" => "No conditions found"
  | "studySummary" => "No brief summary found"
  | "studyDesign" => "No study design found"
  | "patientEligibility" => "No eligibility criteria found"
  | "organizations" => "No organizations found"
  | "primaryOutcomes" => "No primary outcomes found"
  | "secondaryOutcomes" => "No secondary outcomes found"
  | "references" => "No references found"
  | "statusDates" => "No status dates found"
  | _ => ""

/-- A study record as returned by the search endpoint, carrying exactly a
brief title and an NCT identifier under the documented path. -/
def mkStudy (e : String × String) : Json :=
  .obj [("protocolSection",
         .obj [("identificationModule",
                .obj [("briefTitle", .str e.1), ("nctId", .str e.2)])])]

/-- A record endpoint that answers every identifier with HTTP 200 and an
empty JSON document. -/
def rr200 : String → HttpResponse := fun _ => ⟨200, .obj []⟩

/-- A filesystem with one pre-existing `out.csv`, all writes permitted. -/
def fs0 : FileSystem := ⟨"/work", [("out.csv", "old")], fun _ => none⟩

/-- A filesystem on which every open-for-write raises. -/
def fsRO : FileSystem := ⟨"/work", [], fun _ => some "Permission denied"⟩

/-- A benign environment: every argument string parses to the empty
object, the search endpoint answers 200 with an empty studies array, the
record endpoint answers 200 with an empty document. -/
def env0 : Env :=
  { loads := fun _ => .ok (.obj [])
    searchResponse := fun _ _ => ⟨200, .obj [("studies", .arr [])]⟩
    recordResponse := rr200
    fs := ⟨"/work", [], fun _ => none⟩ }

/-- An environment whose `json.loads` rejects every argument string. -/
def envBadLoads : Env :=
  { env0 with loads := fun _ => .error "Expecting value: line 1 column 1 (char 0)" }

/-- An environment whose `json.loads` yields a keyword that no handler
accepts, so keyword binding fails at the call. -/
def envBadArg : Env :=
  { env0 with loads := fun _ => .ok (.obj [("bad_arg", .num 1)]) }

/-- The value `study_search` returns in `env0` (200, zero studies). -/
def searchEmptyResult : Json :=
  .obj [("Query Term", .null), ("Page Size", .num 10),
        ("Number of Results", .num 0), ("Study Name", .arr []),
        ("NCT_ID", .arr [])]

/-! ## Lemmas about the Python dict model -/

theorem pyDictGet_insert_self {α : Type} (d : List (String × α)) (k : String)
    (v : α) : pyDictGet (pyDictInsert d k v) k = some v := by
  induction d with
  | nil => simp [pyDictInsert, pyDictGet]
  | cons kv rest ih =>
      obtain ⟨k', v'⟩ := kv
      by_cases h : k' = k
      · simp [pyDictInsert, h, pyDictGet]
      · simp [pyDictInsert, h, pyDictGet, ih]

theorem pyDictGet_insert_ne {α : Type} (d : List (String × α)) (i k : String)
    (v : α) (h : i ≠ k) :
    pyDictGet (pyDictInsert d i v) k = pyDictGet d k := by
  induction d with
  | nil => simp [pyDictInsert, pyDictGet, h]
  | cons kv rest ih =>
      obtain ⟨k', v'⟩ := kv
      by_cases h' : k' = i
      · subst h'; simp [pyDictInsert, pyDictGet, h, ih]
      · simp [pyDictInsert, h', pyDictGet, ih]

/-- Looking up `k` after a fold that assigns `g i` to every key `i` of
`ids` (the shape of both loops in `get_field_info`): if `k` occurs in
`ids` the result is `g k` (the last assignment to `k` wins and every
assignment to `k` writes the same value `g k`), otherwise the dict is
unchanged at `k`. -/
theorem pyDictGet_foldl_insert {α : Type} (g : String → α) :
    ∀ (ids : List String) (d : List (String × α)) (k : String),
      pyDictGet (ids.foldl (fun d i => pyDictInsert d i (g i)) d) k =
        if k ∈ ids then some (g k) else pyDictGet d k := by
  intro ids
  induction ids with
  | nil => intro d k; simp
  | cons i rest ih =>
      intro d k
      simp only [List.foldl_cons, ih]
      by_cases hmem : k ∈ rest
      · simp [hmem]
      · by_cases hk : k = i
        · subst hk; simp [hmem, pyDictGet_insert_self]
        · simp [hmem, hk, pyDictGet_insert_ne _ _ _ _ (Ne.symm hk)]

/-- Reading any key of the dict built by `get_field_info`: keys that occur
among the split identifiers carry their per-identifier result (the second
loop's assignment wins), other keys still carry the two initial metadata
entries. -/
theorem get_field_info_lookup (rr : String → HttpResponse) (nct_ids : String)
    (field : Json) (k : String) :
    pyDictGet (get_field_info rr nct_ids field) k =
      if k ∈ splitIds nct_ids then some (field_result rr field k)
      else pyDictGet
        [("nct_ids", Json.arr ((splitIds nct_ids).map Json.str)), ("field", field)] k := by
  unfold get_field_info
  simp only [pyDictGet_foldl_insert]
  by_cases h : k ∈ splitIds nct_ids <;> simp [h]

/-! ## Claim theorems -/

/-- C7: for the identifier string `"NCT1,  NCT2,NCT3"`, the identifier
list extracted by `get_field_info` (its preprocessing `splitIds`,
src/app.py lines 236-237) is exactly `["NCT1", "NCT2", "NCT3"]`:
whitespace is stripped and input order is preserved. -/
theorem splitIds_strips_spaces_preserves_order :
    splitIds "NCT1,  NCT2,NCT3" = ["NCT1", "NCT2", "NCT3"] := by decide

/-- C10: the dict returned by `get_field_info` carries the metadata
entries `nct_ids` (the split identifier list) and `field` (the field
argument) — unless the identifier batch itself contains the literal
string `"nct_ids"` or `"field"`, in which case the final per-identifier
assignment loop overwrites the corresponding metadata entry with that
identifier's per-identifier result. -/
theorem get_field_info_metadata_entries (rr : String → HttpResponse)
    (nct_ids : String) (field : Json) :
    pyDictGet (get_field_info rr nct_ids field) "nct_ids" =
      (if "nct_ids" ∈ splitIds nct_ids then
        some (field_result rr field "nct_ids")
       else some (.arr ((splitIds nct_ids).map .str))) ∧
    pyDictGet (get_field_info rr nct_ids field) "field" =
      (if "field" ∈ splitIds nct_ids then
        some (field_result rr field "field")
       else some field) := by
  constructor <;> rw [get_field_info_lookup] <;> split <;> simp [pyDictGet]

/-- C3: for every field name outside the eleven recognized ones, and
every identifier in the batch (whose record fetch returns HTTP 200, the
path on which the field dispatch runs), `get_field_info` maps that
identifier to the fixed message enumerating the valid field names. -/
theorem get_field_info_unknown_field (rr : String → HttpResponse)
    (nct_ids fieldName : String)
    (hfield : fieldName ∉ validFields)
    (h200 : ∀ id ∈ splitIds nct_ids, (rr id).status_code = 200) :
    ∀ id ∈ splitIds nct_ids,
      pyDictGet (get_field_info rr nct_ids (.str fieldName)) id =
        some (.str ("Field " ++ fieldName ++
          " is not a valid field. Valid fields are: studyArmsInterventions, patientConditions, studySummary, studyDesign, patientEligibility, organizations, primaryOutcomes, secondaryOutcomes, references, statusDates.")) := by
  intro id hid
  rw [get_field_info_lookup, if_pos hid]
  have h' := hfield
  simp only [validFields, List.mem_cons, List.mem_singleton, not_or] at h'
  obtain ⟨h1, h2, h3, h4, h5, h6, h7, h8, h9, h10, h11⟩ := h'
  simp [field_result, pyEqStr, h200 id hid, h1, h2, h3, h4, h5, h6, h7, h8,
    h9, h10, h11, pyStr]

/-- Witness for C3 at a concrete unrecognized field name. -/
theorem get_field_info_unknown_field_witness :
    pyDictGet (get_field_info rr200 "NCT1" (Json.str "bogusField")) "NCT1" =
      some (Json.str "Field bogusField is not a valid field. Valid fields are: studyArmsInterventions, patientConditions, studySummary, studyDesign, patientEligibility, organizations, primaryOutcomes, secondaryOutcomes, references, statusDates.") :=
  get_field_info_unknown_field rr200 "NCT1" "bogusField" (by decide)
    (fun _ _ => rfl) "NCT1" (by decide)

/-- C6: for every one of the eleven supported field names and every
identifier whose record fetch returns HTTP 200 with a document lacking
that field's path, `get_field_info` maps that identifier to the
field-specific not-found fallback string — and, the function being total,
it never raises. -/
theorem get_field_info_missing_path (rr : String → HttpResponse)
    (nct_ids fieldName : String)
    (hfield : fieldName ∈ validFields)
    (hrec : ∀ id ∈ splitIds nct_ids, (rr id).status_code = 200 ∧
        ∃ e, pySubPath (rr id).body (fieldPath fieldName) = .error e) :
    ∀ id ∈ splitIds nct_ids,
      pyDictGet (get_field_info rr nct_ids (.str fieldName)) id =
        some (.str (fieldFallback fieldName)) := by
  intro id hid
  rw [get_field_info_lookup, if_pos hid]
  obtain ⟨h200, e, he⟩ := hrec id hid
  fin_cases hfield <;>
    simp only [fieldPath] at he <;>
    simp [field_result, pyEqStr, h200, tryPath, he, fieldFallback]

/-- Witness for C6 at a concrete supported field and an empty document. -/
theorem get_field_info_missing_path_witness :
    pyDictGet (get_field_info rr200 "NCT1" (Json.str "studySummary")) "NCT1" =
      some (Json.str "No brief summary found") :=
  get_field_info_missing_path rr200 "NCT1" "studySummary" (by decide)
    (fun _ _ => ⟨rfl, "KeyError: \x27protocolSection\x27", rfl⟩)
    "NCT1" (by decide)

/-- On a list of records of the canonical search shape, the extraction
loop succeeds and yields the titles and identifiers in input order. -/
theorem collectStudies_mkStudy (entries : List (String × String)) :
    collectStudies (entries.map mkStudy) =
      .ok (entries.map (fun e => .str e.1), entries.map (fun e => .str e.2)) := by
  induction entries with
  | nil => rfl
  | cons e rest ih =>
      simp [collectStudies, pySub3, mkStudy, pySub, pyDictGet, ih]

/-- C5: for a 200 search response whose `studies` array holds the records
for `entries` (each exposing a brief title and an NCT identifier),
`study_search` returns the structured summary with `Number of Results`
equal to the number of entries and parallel `Study Name` / `NCT_ID` lists
of that length, in the same order as the response entries. -/
theorem study_search_200 (entries : List (String × String)) (q p : Json)
    (resp : HttpResponse)
    (h200 : resp.status_code = 200)
    (hstudies : pySub resp.body "studies" = .ok (.arr (entries.map mkStudy))) :
    study_search resp q p = .ok (.obj
      [("Query Term", q), ("Page Size", p),
       ("Number of Results", .num entries.length),
       ("Study Name", .arr (entries.map (fun e => .str e.1))),
       ("NCT_ID", .arr (entries.map (fun e => .str e.2)))]) := by
  unfold study_search
  rw [if_pos h200, hstudies]
  simp [collectStudies_mkStudy]

/-- Witness for C5 with three studies. -/
theorem study_search_200_witness :
    study_search
      ⟨200, Json.obj [("studies",
        Json.arr ([("A", "NCT1"), ("B", "NCT2"), ("C", "NCT3")].map mkStudy))]⟩
      (Json.str "cancer") (Json.num 3) =
      Except.ok (Json.obj
        [("Query Term", Json.str "cancer"), ("Page Size", Json.num 3),
         ("Number of Results", Json.num 3),
         ("Study Name", Json.arr [Json.str "A", Json.str "B", Json.str "C"]),
         ("NCT_ID", Json.arr [Json.str "NCT1", Json.str "NCT2", Json.str "NCT3"])]) :=
  study_search_200 [("A", "NCT1"), ("B", "NCT2"), ("C", "NCT3")]
    (Json.str "cancer") (Json.num 3) _ rfl rfl

/-- C8: for every non-200 search response, `study_search` returns the
plain-text string embedding the numeric status code — a `Json.str`, not a
structured object. -/
theorem study_search_non200 (resp : HttpResponse) (q p : Json)
    (h : resp.status_code ≠ 200) :
    study_search resp q p =
      .ok (.str ("Request failed with status code " ++
        toString resp.status_code)) := by
  unfold study_search
  rw [if_neg h]

/-- Witness for C8 at status 404. -/
theorem study_search_non200_witness :
    study_search ⟨404, Json.obj []⟩ (Json.str "cancer") (Json.num 10) =
      Except.ok (Json.str "Request failed with status code 404") :=
  study_search_non200 ⟨404, Json.obj []⟩ (Json.str "cancer") (Json.num 10)
    (by decide)

/-- C9 counterexample: on a writable filesystem with working directory
`/work`, `save_csv` of title `out` succeeds but returns the string
`"Saved to:/work/out.csv"`, which is not the absolute path
`/work/out.csv` the claim says it returns. -/
theorem save_csv_return_not_bare_path :
    (save_csv ⟨"/work", [], fun _ => none⟩ "a,b\n1,2" "out").2 =
        "Saved to:/work/out.csv" ∧
    (save_csv ⟨"/work", [], fun _ => none⟩ "a,b\n1,2" "out").2 ≠
        "/work/out.csv" := by
  constructor
  · rfl
  · decide

/-- C9 (amended): `save_csv` writes the text verbatim to `<title>.csv` in
the working directory, overwriting (not appending to) any existing file
of that name, and returns `"Saved to:"` followed by the absolute path on
success, or an error string on failure. -/
theorem save_csv_spec (fs : FileSystem) (text text2 title : String) :
    (fs.openFails (title ++ ".csv") = none →
       (save_csv fs text title).2 =
           "Saved to:" ++ fs.cwd ++ "/" ++ title ++ ".csv" ∧
       pyDictGet (save_csv fs text title).1.files (title ++ ".csv") =
           some text ∧
       pyDictGet (save_csv (save_csv fs text title).1 text2 title).1.files
           (title ++ ".csv") = some text2) ∧
    (∀ e, fs.openFails (title ++ ".csv") = some e →
       save_csv fs text title = (fs, "Error saving file: " ++ e)) := by
  constructor
  · intro h
    simp [save_csv, h, pyDictGet_insert_self]
  · intro e h
    simp [save_csv, h]

/-- Witness for C9 (amended), exercising the success branch over an
existing `out.csv` and the failure branch on a read-only filesystem. -/
theorem save_csv_spec_witness :
    ((save_csv fs0 "a,b\n1,2" "out").2 = "Saved to:/work/out.csv" ∧
     pyDictGet (save_csv fs0 "a,b\n1,2" "out").1.files "out.csv" =
         some "a,b\n1,2" ∧
     pyDictGet (save_csv (save_csv fs0 "a,b\n1,2" "out").1 "zz" "out").1.files
         "out.csv" = some "zz") ∧
    save_csv fsRO "a,b\n1,2" "out" =
        (fsRO, "Error saving file: Permission denied") :=
  ⟨(save_csv_spec fs0 "a,b\n1,2" "zz" "out").1 rfl,
   (save_csv_spec fsRO "a,b\n1,2" "zz" "out").2 "Permission denied" rfl⟩

/-- C1 counterexample: with a scripted LLM requesting the unregistered
function name `lookup_study`, the dispatch turn neither produces an error
result nor proceeds to the text response: it crashes with the uncaught
`KeyError` raised by `function_map[function_name]` (src/app.py line 379,
which is outside the `try` of lines 388-391), appending nothing for that
round. -/
theorem unknown_function_crashes_turn :
    run_turn env0
      [.function_call "lookup_study" "\x7b\x7d", .text "never reached"]
      [] "find trials" =
      .error "KeyError: \x27lookup_study\x27" := rfl

/-- C1 (amended): for every function-call request whose name is not a key
of the Function Registry, the dispatch loop raises an uncaught `KeyError`
at the registry lookup, which precedes the `try/except`; the turn is
aborted instead of producing an error result. -/
theorem unknown_function_raises (env : Env) (name arguments : String)
    (rest : List Response) (msgs : List Message)
    (h : pyDictGet function_map name = none) :
    dispatchLoop env (.function_call name arguments :: rest) msgs =
      .error ("KeyError: \x27" ++ name ++ "\x27") := by
  unfold dispatchLoop
  rw [h]

/-- Witness for C1 (amended) at the unregistered name `lookup_study`. -/
theorem unknown_function_raises_witness :
    dispatchLoop env0 [.function_call "lookup_study" "\x7b\x7d"] [] =
      .error "KeyError: \x27lookup_study\x27" :=
  unknown_function_raises env0 "lookup_study" "\x7b\x7d" [] [] rfl

/-- C2 counterexample: with a scripted LLM whose function-call arguments
do not parse, the turn crashes with the uncaught exception from
`json.loads` (src/app.py line 380, outside the `try` of lines 388-391)
instead of producing an error result. -/
theorem malformed_arguments_crash_turn :
    run_turn envBadLoads
      [.function_call "study_search" "not json", .text "never reached"]
      [] "find trials" =
      .error "Expecting value: line 1 column 1 (char 0)" := rfl

/-- C2 (amended): a failure to parse the serialized arguments propagates
uncaught out of the dispatch round (aborting the turn), while a failure
to bind the parsed arguments to the handler's parameters (or any handler
exception) is caught and surfaced as the function's result content
`"Function call failed with error: " ++ e`, after which the loop
continues. -/
theorem dispatch_failure_surfacing :
    (∀ (env : Env) (name arguments e : String)
       (fn : Env → Json → Except String (Json × Env))
       (rest : List Response) (msgs : List Message),
       pyDictGet function_map name = some fn →
       env.loads arguments = .error e →
       dispatchLoop env (.function_call name arguments :: rest) msgs =
         .error e) ∧
    (∀ (env : Env) (name arguments e : String) (args : Json)
       (fn : Env → Json → Except String (Json × Env))
       (rest : List Response) (msgs : List Message),
       pyDictGet function_map name = some fn →
       env.loads arguments = .ok args →
       fn env args = .error e →
       dispatchLoop env (.function_call name arguments :: rest) msgs =
         dispatchLoop env rest
           (msgs ++
            [Message.chat "system"
               ("Calling function " ++ name ++ " with arguments: " ++
                 pyRepr args),
             Message.function name
               (pyJsonDumps
                 (.str ("Function call failed with error: " ++ e)))])) := by
  constructor
  · intro env name arguments e fn rest msgs h1 h2
    unfold dispatchLoop
    rw [h1, h2]
  · intro env name arguments e args fn rest msgs h1 h2 h3
    conv_lhs => rw [dispatchLoop]
    rw [h1, h2]
    simp [h3]

/-- Witness for C2 (amended): the parse-failure branch crashes; the
binding-failure branch (an unexpected keyword for `study_search`) surfaces
the exception text as the function result and the loop continues. -/
theorem dispatch_failure_surfacing_witness :
    dispatchLoop envBadLoads [.function_call "study_search" "not json"] [] =
      .error "Expecting value: line 1 column 1 (char 0)" ∧
    dispatchLoop envBadArg
      [.function_call "study_search" "not json", .text "ok"] [] =
      dispatchLoop envBadArg [.text "ok"]
        ([] ++
         [Message.chat "system"
            ("Calling function study_search with arguments: " ++
              pyRepr (Json.obj [("bad_arg", Json.num 1)])),
          Message.function "study_search"
            (pyJsonDumps
              (Json.str "Function call failed with error: TypeError: study_search() got an unexpected keyword argument"))]) :=
  ⟨dispatch_failure_surfacing.1 envBadLoads "study_search" "not json"
      "Expecting value: line 1 column 1 (char 0)" study_search_callable [] []
      rfl rfl,
   dispatch_failure_surfacing.2 envBadArg "study_search" "not json"
      "TypeError: study_search() got an unexpected keyword argument"
      (Json.obj [("bad_arg", Json.num 1)]) study_search_callable
      [.text "ok"] [] rfl rfl rfl⟩

/-- C4: with a scripted LLM returning one function-call response (for a
registered name, with parseable arguments and a handler that returns
normally) followed by one text response, exactly one dispatch round runs:
the resulting history extends the prior history with, in order, the user
message, the system notice naming the call and its arguments, the
function-result message carrying the `json.dumps` of the return value,
and the assistant text message — and the loop terminates. -/
theorem run_turn_round (env : Env) (history : List Message)
    (prompt name arguments reply : String) (args ret : Json) (env' : Env)
    (fn : Env → Json → Except String (Json × Env))
    (h1 : pyDictGet function_map name = some fn)
    (h2 : env.loads arguments = .ok args)
    (h3 : fn env args = .ok (ret, env')) :
    run_turn env [.function_call name arguments, .text reply] history prompt =
      .ok (history ++
        [Message.chat "user" prompt,
         Message.chat "system"
           ("Calling function " ++ name ++ " with arguments: " ++ pyRepr args),
         Message.function name (pyJsonDumps ret),
         Message.chat "assistant" reply], env') := by
  unfold run_turn
  conv_lhs => rw [dispatchLoop]
  rw [h1, h2]
  simp [h3, dispatchLoop]

/-- Witness for C4: a turn whose scripted LLM calls `study_search` on an
empty argument object and then answers. -/
theorem run_turn_round_witness :
    run_turn env0
      [.function_call "study_search" "\x7b\x7d", .text "All done."]
      [] "find trials" =
      .ok ([] ++
        [Message.chat "user" "find trials",
         Message.chat "system"
           ("Calling function study_search with arguments: " ++
             pyRepr (Json.obj [])),
         Message.function "study_search" (pyJsonDumps searchEmptyResult),
         Message.chat "assistant" "All done."], env0) :=
  run_turn_round env0 [] "find trials" "study_search" "\x7b\x7d" "All done."
    (Json.obj []) searchEmptyResult env0 study_search_callable rfl rfl rfl

end ClinicalTrials
